import Mathlib

/-!
Formal model of the calculation core of the `meka` repository
(`src/lambda/calculations.py`, function `calculate_assessment_scores`).

Modelling conventions:
* Python dictionaries are association lists `List (String × Val)` in insertion
  order; `d[k]` is first-match lookup, `d[k] = v` replaces the value in place
  when the key exists and appends otherwise, and `d.copy()` is a shallow copy
  (identity on the immutable model).
* Python numbers are exact rationals `ℚ`.  The int/float distinction that
  Python's `isinstance(value, int)` test and the `else 0` fallbacks observe is
  kept in the `Val` type: `Val.vint` models a Python `int`, `Val.vnum` a
  Python `float` (true division `/` always produces a float, so division
  results are `vnum`; the literal `0` of an `else` branch is `vint 0`).
* `round(x, 1)` is modelled as round-half-to-even at one decimal digit on the
  exact rational value.
* Fallible operations (`KeyError` on a missing key, `TypeError` on a value of
  the wrong type) live in `Except String`.
-/

namespace Meka

/-- A Python value as it appears in an assessment record: an `int`, a `float`,
a `str`, or a nested `dict`. -/
inductive Val where
  | vint : ℤ → Val
  | vnum : ℚ → Val
  | vstr : String → Val
  | vdict : List (String × Val) → Val

/-- A Python dictionary with string keys, in insertion order. -/
abbrev Dict := List (String × Val)

/-- Dictionary lookup, `d.get(k)`: the value at the first matching key. -/
def dictGet : Dict → String → Option Val
  | [], _ => none
  | (k', v) :: rest, k => if k' = k then some v else dictGet rest k

/-- Dictionary assignment, `d[k] = v`: replace the value in place when the key
exists, append otherwise (Python dicts preserve insertion order). -/
def dictSet : Dict → String → Val → Dict
  | [], k, v => [(k, v)]
  | (k', v') :: rest, k, v =>
    if k' = k then (k', v) :: rest else (k', v') :: dictSet rest k v

/-- Shallow copy `d.copy()`: a new top-level mapping with the same entries;
on the immutable model this is the identity. -/
def pyCopy (d : Dict) : Dict := d

/-- Subscription `d[k]`: the value at `k`, or a `KeyError` when absent. -/
def getKey (d : Dict) (k : String) : Except String Val :=
  match dictGet d k with
  | some v => .ok v
  | none => .error ("KeyError: " ++ k)

/-- View a value as a dictionary; anything else is a `TypeError` (subscripting
a non-dict with a string key fails in Python). -/
def asDict : Val → Except String Dict
  | .vdict d => .ok d
  | _ => .error "TypeError: not a dict"

/-- View a value as a number (Python `int` or `float`), as numeric comparison
and arithmetic require; anything else is a `TypeError`. -/
def asNum : Val → Except String ℚ
  | .vint n => .ok (n : ℚ)
  | .vnum q => .ok q
  | _ => .error "TypeError: not a number"

/-- Subscription followed by use as a dictionary. -/
def getDict (d : Dict) (k : String) : Except String Dict := do
  asDict (← getKey d k)

/-- Subscription followed by use as a number. -/
def getNum (d : Dict) (k : String) : Except String ℚ := do
  asNum (← getKey d k)

/-- The `industry_data` table of `calculations.py` (lines 34-47): industry
name ↦ (EBITDA multiple, EBITDA margin). -/
def industry_data : List (String × ℚ × ℚ) :=
  [("Retail", 4.1, 15.0),
   ("Restaurants", 3.6, 12.5),
   ("Construction", 4.3, 18.0),
   ("Manufacturing", 4.6, 19.2),
   ("Professional Services", 4.5, 26.7),
   ("Healthcare (Non-Medical)", 5.0, 22.2),
   ("E-commerce", 4.8, 20.3),
   ("Wholesale/Distribution", 4.2, 14.9),
   ("Auto Repair", 3.8, 17.7),
   ("Beauty/Personal Care", 3.7, 15.4),
   ("IT Services", 5.3, 25.6),
   ("Other", 4.1, 17.5)]

/-- First-match lookup in the industry table. -/
def industryLookup : List (String × ℚ × ℚ) → String → Option (ℚ × ℚ)
  | [], _ => none
  | (k, m, g) :: rest, s => if k = s then some (m, g) else industryLookup rest s

/-- The row of the `Other` industry, `industry_data['Other']` (line 49). -/
def industryOther : ℚ × ℚ :=
  match industryLookup industry_data "Other" with
  | some p => p
  | none => (0, 0)

/-- `industry_data.get(industry, industry_data['Other'])` (line 49), where
`industry` is whatever value sits under `company_industry`.  A string key is
looked up in the table with the `Other` row as default; any other hashable
value (an `int` or `float`) simply misses the table and yields the default;
an unhashable value (a `dict`) is a `TypeError`. -/
def industryGet : Val → Except String (ℚ × ℚ)
  | .vstr s => .ok ((industryLookup industry_data s).getD industryOther)
  | .vdict _ => .error "TypeError: unhashable type"
  | _ => .ok industryOther

/-- Round half to even (Python's `round` tie-breaking rule) of a rational to
an integer. -/
def roundHalfEven (q : ℚ) : ℤ :=
  if q - (⌊q⌋ : ℚ) < 1 / 2 then ⌊q⌋
  else if q - (⌊q⌋ : ℚ) > 1 / 2 then ⌊q⌋ + 1
  else if ⌊q⌋ % 2 = 0 then ⌊q⌋ else ⌊q⌋ + 1

/-- Python's `round(x, 1)` on the exact rational value of a float. -/
def pyRound1 (q : ℚ) : ℚ := (roundHalfEven (q * 10) : ℚ) / 10

/-- The list comprehension `[value for value in d.values() if
isinstance(value, int)]` (lines 93 and 101): the `int`-valued entries of a
section, in order. -/
def intValues (d : Dict) : List ℤ :=
  (d.map Prod.snd).filterMap fun v =>
    match v with
    | .vint n => some n
    | _ => none

/-- The score aggregation that `calculations.py` performs once per section
(lines 93-98 for business performance, 101-106 for personal readiness):
`round((sum(values) / (len(values) * 6) * 100) if len(values) * 6 > 0 else 0, 1)`
over the `int`-valued entries.  `round(0, 1)` on the `int` `0` of the empty
branch returns the `int` `0`; the positive branch rounds a float. -/
def section_score (d : Dict) : Val :=
  let values := intValues d
  let total : ℤ := values.sum
  let max_possible : ℤ := values.length * 6
  if max_possible > 0 then
    Val.vnum (pyRound1 ((total : ℚ) / (max_possible : ℚ) * 100))
  else
    Val.vint 0

/-- The calculation engine, `calculate_assessment_scores` of
`src/lambda/calculations.py`, line by line.  Lookups are performed in source
order, including the re-lookups, and the numerator of each guarded division
is only looked up when the guard holds (Python's conditional expression is
lazy in the untaken branch). -/
def calculate_assessment_scores (assessment_data : Dict) : Except String Dict := do
  -- enriched_data = assessment_data.copy()          (line 22)
  let enriched_data := pyCopy assessment_data
  -- section extraction                              (lines 25-27)
  let sections ← getDict assessment_data "assessment_data"
  let business_goals ← getDict sections "business_goals_and_financials"
  let business_performance ← getDict sections "business_performance_and_transferability"
  let personal_readiness ← getDict sections "personal_readiness_for_business_owners"
  -- industry = business_goals['company_industry']   (line 33)
  let industry ← getKey business_goals "company_industry"
  -- selected_industry = industry_data.get(industry, industry_data['Other'])  (line 49)
  let selected_industry ← industryGet industry
  let ebitda_multiple : ℚ := selected_industry.1
  let ebitda_margin : ℚ := selected_industry.2
  -- revenue_per_employee                            (lines 54-57)
  let noe ← getNum business_goals "number_of_employees"
  let revenue_per_employee : Val ←
    if noe > 0 then do
      let lyr ← getNum business_goals "last_year_revenue"
      pure (Val.vnum (lyr / noe))
    else
      pure (Val.vint 0)
  -- last_year_profit_percentage                     (lines 58-61)
  let lyrA ← getNum business_goals "last_year_revenue"
  let last_year_profit_percentage : Val ←
    if lyrA > 0 then do
      let lyp ← getNum business_goals "last_year_profit"
      pure (Val.vnum (lyp / lyrA))
    else
      pure (Val.vint 0)
  -- current_year_profit_percentage                  (lines 62-65)
  let cyrA ← getNum business_goals "current_year_estimated_revenue"
  let current_year_profit_percentage : Val ←
    if cyrA > 0 then do
      let cyp ← getNum business_goals "current_year_estimated_profit"
      pure (Val.vnum (cyp / cyrA))
    else
      pure (Val.vint 0)
  -- two_year_average_revenue                        (lines 66-68)
  let cyrB ← getNum business_goals "current_year_estimated_revenue"
  let lyrB ← getNum business_goals "last_year_revenue"
  let two_year_average_revenue : ℚ := (cyrB + lyrB) / 2
  -- two_year_average_profit                         (lines 69-71)
  let cypB ← getNum business_goals "current_year_estimated_profit"
  let lypB ← getNum business_goals "last_year_profit"
  let two_year_average_profit : ℚ := (cypB + lypB) / 2
  -- two_year_average_self_reported_multiple         (lines 72-75)
  let two_year_average_self_reported_multiple : Val :=
    if two_year_average_profit > 0 then
      Val.vnum (two_year_average_revenue / two_year_average_profit)
    else
      Val.vint 0
  -- range_of_value_low                              (line 76)
  let range_of_value_low : ℚ := two_year_average_profit * 3
  -- current_value_information_provided              (lines 77-79)
  let current_value_information_provided : ℚ := two_year_average_profit * ebitda_margin / 100
  -- range_of_value_high                             (lines 80-82)
  let range_of_value_high : ℚ := two_year_average_profit * ebitda_multiple * 1.4
  -- profit_gap_surplus                              (lines 83-86)
  let cyrC ← getNum business_goals "current_year_estimated_revenue"
  let lyppNum ← asNum last_year_profit_percentage
  let profit_gap_surplus : ℚ := cyrC * lyppNum - cyrC * ebitda_margin / 100
  -- exit_planning_value_opportunity                 (lines 87-89)
  let exit_planning_value_opportunity : ℚ :=
    range_of_value_high - current_value_information_provided
  -- company_transferability_score                   (lines 93-98)
  let company_transferability_score : Val := section_score business_performance
  -- personal_readiness_score                        (lines 101-106)
  let personal_readiness_score : Val := section_score personal_readiness
  -- the assessment_calculations dict, in the insertion order of lines 50-106
  let assessment_calculations : Dict :=
    [("ebitda_multiple", Val.vnum ebitda_multiple),
     ("ebitda_margin", Val.vnum ebitda_margin),
     ("revenue_per_employee", revenue_per_employee),
     ("last_year_profit_percentage", last_year_profit_percentage),
     ("current_year_profit_percentage", current_year_profit_percentage),
     ("two_year_average_revenue", Val.vnum two_year_average_revenue),
     ("two_year_average_profit", Val.vnum two_year_average_profit),
     ("two_year_average_self_reported_multiple", two_year_average_self_reported_multiple),
     ("range_of_value_low", Val.vnum range_of_value_low),
     ("current_value_information_provided", Val.vnum current_value_information_provided),
     ("range_of_value_high", Val.vnum range_of_value_high),
     ("profit_gap_surplus", Val.vnum profit_gap_surplus),
     ("exit_planning_value_opportunity", Val.vnum exit_planning_value_opportunity),
     ("company_transferability_score", company_transferability_score),
     ("personal_readiness_score", personal_readiness_score)]
  -- enriched_data['assessment_calculations'] = assessment_calculations  (line 109)
  pure (dictSet enriched_data "assessment_calculations" (Val.vdict assessment_calculations))

/-- Removal of a key (used only to build test records with a field absent;
not part of the modelled source). -/
def dictRemove : Dict → String → Dict
  | [], _ => []
  | (k', v) :: rest, k =>
    if k' = k then dictRemove rest k else (k', v) :: dictRemove rest k

/-- Whether an `Except` computation failed. -/
def isErr {α : Type} : Except String α → Bool
  | .error _ => true
  | .ok _ => false

/-- Whether an `Except` computation succeeded. -/
def isOkE {α : Type} : Except String α → Bool
  | .error _ => false
  | .ok _ => true

/-- The computed `assessment_calculations` section of the enriched record,
when the run succeeds and the key holds a dictionary. -/
def calcsOf (r : Dict) : Option Dict :=
  match calculate_assessment_scores r with
  | .ok out =>
    match dictGet out "assessment_calculations" with
    | some (.vdict m) => some m
    | _ => none
  | .error _ => none

/-- A section entry that satisfies the schema's range check: a Python `int`
between 1 and 6. -/
def scoreVal : Val → Prop
  | .vint n => 1 ≤ n ∧ n ≤ 6
  | _ => False

instance : DecidablePred scoreVal := fun v =>
  match v with
  | .vint n => inferInstanceAs (Decidable (1 ≤ n ∧ n ≤ 6))
  | .vnum _ => inferInstanceAs (Decidable False)
  | .vstr _ => inferInstanceAs (Decidable False)
  | .vdict _ => inferInstanceAs (Decidable False)

/-- Closed form of the `assessment_calculations` dictionary that the engine
builds, as a function of the extracted inputs: the industry string, the five
numeric fields of `business_goals_and_financials` (`noe` employees, `lyr`/`lyp`
last-year revenue/profit, `cyr`/`cyp` current-year estimated revenue/profit)
and the two score sections.  `calculate_eq` below proves the engine produces
exactly this dictionary. -/
def assessmentCalculations (ind : String) (noe lyr lyp cyr cyp : ℚ) (bp pr : Dict) : Dict :=
  let selected := (industryLookup industry_data ind).getD industryOther
  let ebitda_multiple : ℚ := selected.1
  let ebitda_margin : ℚ := selected.2
  let two_year_average_revenue : ℚ := (cyr + lyr) / 2
  let two_year_average_profit : ℚ := (cyp + lyp) / 2
  let lypp : ℚ := if lyr > 0 then lyp / lyr else 0
  [("ebitda_multiple", Val.vnum ebitda_multiple),
   ("ebitda_margin", Val.vnum ebitda_margin),
   ("revenue_per_employee", if noe > 0 then Val.vnum (lyr / noe) else Val.vint 0),
   ("last_year_profit_percentage", if lyr > 0 then Val.vnum (lyp / lyr) else Val.vint 0),
   ("current_year_profit_percentage", if cyr > 0 then Val.vnum (cyp / cyr) else Val.vint 0),
   ("two_year_average_revenue", Val.vnum two_year_average_revenue),
   ("two_year_average_profit", Val.vnum two_year_average_profit),
   ("two_year_average_self_reported_multiple",
     if two_year_average_profit > 0 then
       Val.vnum (two_year_average_revenue / two_year_average_profit)
     else Val.vint 0),
   ("range_of_value_low", Val.vnum (two_year_average_profit * 3)),
   ("current_value_information_provided",
     Val.vnum (two_year_average_profit * ebitda_margin / 100)),
   ("range_of_value_high", Val.vnum (two_year_average_profit * ebitda_multiple * 1.4)),
   ("profit_gap_surplus", Val.vnum (cyr * lypp - cyr * ebitda_margin / 100)),
   ("exit_planning_value_opportunity",
     Val.vnum (two_year_average_profit * ebitda_multiple * 1.4 -
       two_year_average_profit * ebitda_margin / 100)),
   ("company_transferability_score", section_score bp),
   ("personal_readiness_score", section_score pr)]

/-- Concrete `business_goals_and_financials` section: the §8 scenario of the
spec (industry Retail, 10 employees, 200000/30000 last-year revenue/profit,
220000/35000 current-year estimates), all schema-required fields present. -/
def sampleBG : Dict :=
  [("company_name", .vstr "Acme Cycles"),
   ("company_industry", .vstr "Retail"),
   ("number_of_employees", .vint 10),
   ("current_business_value", .vint 500000),
   ("target_sale_price", .vint 600000),
   ("last_year_revenue", .vint 200000),
   ("last_year_profit", .vint 30000),
   ("current_year_estimated_revenue", .vint 220000),
   ("current_year_estimated_profit", .vint 35000),
   ("planned_exit_timeline", .vstr "3-5 years"),
   ("would_accept_offer", .vstr "yes"),
   ("business_readiness", .vstr "business would struggle some but remain functioning")]

/-- Concrete `business_performance_and_transferability` section: all 26
schema fields, each scored 4. -/
def sampleBP : Dict :=
  [("financial_statements", .vint 4), ("profitability", .vint 4),
   ("customer_base", .vint 4), ("sales_growth", .vint 4),
   ("brand_value", .vint 4), ("marketing", .vint 4),
   ("market_position", .vint 4), ("customer_relationships", .vint 4),
   ("growth_strategy", .vint 4), ("revenue_streams", .vint 4),
   ("management_capability", .vint 4), ("leadership_roles", .vint 4),
   ("succession_planning", .vint 4), ("employee_turnover", .vint 4),
   ("business_processes", .vint 4), ("it_systems", .vint 4),
   ("operations_continuity", .vint 4), ("technology_systems", .vint 4),
   ("proprietary_tech", .vint 4), ("operational_processes", .vint 4),
   ("scalability", .vint 4), ("supplier_contracts", .vint 4),
   ("operating_expenses", .vint 4), ("risk_management", .vint 4),
   ("business_resilience", .vint 4), ("legal_contracts", .vint 4)]

/-- Concrete `personal_readiness_for_business_owners` section: all 10 schema
fields, each scored 6. -/
def samplePR : Dict :=
  [("personal_identity", .vint 6), ("financial_plan", .vint 6),
   ("physical_health", .vint 6), ("energy_level", .vint 6),
   ("estate_plan", .vint 6), ("legal_protections", .vint 6),
   ("future_vision", .vint 6), ("family_communication", .vint 6),
   ("professional_advisors", .vint 6), ("process_confidence", .vint 6)]

/-- Concrete `assessment_data` value combining the three sample sections. -/
def sampleAD : Dict :=
  [("business_goals_and_financials", .vdict sampleBG),
   ("business_performance_and_transferability", .vdict sampleBP),
   ("personal_readiness_for_business_owners", .vdict samplePR)]

/-- Concrete top-level record, schema-valid, used as the running witness
input. -/
def sampleRecord : Dict :=
  [("metadata", .vdict
     [("date_sent", .vstr "2026-01-15T10:00:00Z"),
      ("source", .vstr "web"), ("version", .vstr "1.0")]),
   ("first_name", .vstr "Jane"),
   ("last_name", .vstr "Doe"),
   ("email", .vstr "jane.doe@example.com"),
   ("phone_number", .vstr "+15551234567"),
   ("assessment_data", .vdict sampleAD)]

/-- Variant of `sampleBG` with zero employees (schema-valid: the minimum for
`number_of_employees` is 0). -/
def sampleBG0 : Dict := dictSet sampleBG "number_of_employees" (.vint 0)

/-- Variant of `sampleAD` whose business-goals section is `sampleBG0`. -/
def sampleAD0 : Dict :=
  dictSet sampleAD "business_goals_and_financials" (.vdict sampleBG0)

/-- Variant of `sampleRecord` with zero employees. -/
def sampleRecord0 : Dict := dictSet sampleRecord "assessment_data" (.vdict sampleAD0)

/-- Variant of `sampleBG` with the required field `last_year_profit` absent. -/
def sampleBGNoProfit : Dict := dictRemove sampleBG "last_year_profit"

/-- Variant of `sampleAD` whose business-goals section misses
`last_year_profit`. -/
def sampleADNoProfit : Dict :=
  dictSet sampleAD "business_goals_and_financials" (.vdict sampleBGNoProfit)

/-- Variant of `sampleRecord` whose business-goals section misses
`last_year_profit`. -/
def sampleRecordNoProfit : Dict :=
  dictSet sampleRecord "assessment_data" (.vdict sampleADNoProfit)

/-- Variant of `sampleRecord` that already carries a stale top-level
`assessment_calculations` entry. -/
def sampleRecordPre : Dict :=
  dictSet sampleRecord "assessment_calculations" (.vstr "stale")

/-- Variant of `sampleRecord` with different personal fields but the same
`assessment_data`. -/
def sampleRecordAlt : Dict :=
  [("metadata", .vdict
     [("date_sent", .vstr "2026-02-01T09:30:00Z"),
      ("source", .vstr "api"), ("version", .vstr "1.1")]),
   ("first_name", .vstr "Sam"),
   ("last_name", .vstr "Smith"),
   ("email", .vstr "sam.smith@example.org"),
   ("phone_number", .vstr "+15557654321"),
   ("assessment_data", .vdict sampleAD)]

/-- Concrete partial personal-readiness section: only 2 of the 10 fields,
both scored 6 (the §8 partial-section scenario). -/
def partialPR : Dict :=
  [("estate_plan", .vint 6), ("future_vision", .vint 6)]

/-- Master extraction lemma: on any record whose required fields are present
with the right types, the engine succeeds and returns the input with the
`assessment_calculations` key set to the closed-form dictionary. -/
theorem calculate_eq (r sections bg bp pr : Dict) (ind : String)
    (noe lyr lyp cyr cyp : ℚ)
    (hA : getDict r "assessment_data" = .ok sections)
    (hBG : getDict sections "business_goals_and_financials" = .ok bg)
    (hBP : getDict sections "business_performance_and_transferability" = .ok bp)
    (hPR : getDict sections "personal_readiness_for_business_owners" = .ok pr)
    (hInd : getKey bg "company_industry" = .ok (.vstr ind))
    (hNoe : getNum bg "number_of_employees" = .ok noe)
    (hLyr : getNum bg "last_year_revenue" = .ok lyr)
    (hLyp : getNum bg "last_year_profit" = .ok lyp)
    (hCyr : getNum bg "current_year_estimated_revenue" = .ok cyr)
    (hCyp : getNum bg "current_year_estimated_profit" = .ok cyp) :
    calculate_assessment_scores r =
      .ok (dictSet r "assessment_calculations"
        (Val.vdict (assessmentCalculations ind noe lyr lyp cyr cyp bp pr))) := by
  by_cases h1 : noe > 0 <;> by_cases h2 : lyr > 0 <;> by_cases h3 : cyr > 0 <;>
    simp [calculate_assessment_scores, assessmentCalculations, pyCopy, industryGet,
      hA, hBG, hBP, hPR, hInd, hNoe, hLyr, hLyp, hCyr, hCyp, h1, h2, h3,
      bind, Except.bind, pure, Except.pure, asNum]

theorem dictGet_dictSet_self (d : Dict) (k : String) (v : Val) :
    dictGet (dictSet d k v) k = some v := by
  induction d with
  | nil => simp [dictSet, dictGet]
  | cons p rest ih =>
    obtain ⟨k', v'⟩ := p
    by_cases h : k' = k <;> simp [dictSet, dictGet, h, ih]

theorem dictGet_dictSet_ne (d : Dict) (k k' : String) (v : Val) (h : k' ≠ k) :
    dictGet (dictSet d k v) k' = dictGet d k' := by
  have hk : ¬ k = k' := fun hh => h hh.symm
  induction d with
  | nil => simp [dictSet, dictGet, hk]
  | cons p rest ih =>
    obtain ⟨k'', v''⟩ := p
    by_cases h2 : k'' = k
    · subst h2
      simp [dictSet, dictGet, hk]
    · by_cases h3 : k'' = k' <;> simp [dictSet, dictGet, h2, h3, h, ih]

theorem dictSet_length_of_get_none (d : Dict) (k : String) (v : Val)
    (h : dictGet d k = none) : (dictSet d k v).length = d.length + 1 := by
  induction d with
  | nil => simp [dictSet]
  | cons p rest ih =>
    obtain ⟨k', v'⟩ := p
    by_cases h2 : k' = k
    · simp [dictGet, h2] at h
    · simp [dictGet, h2] at h
      simp [dictSet, h2, ih h]

theorem roundHalfEven_bounds (q : ℚ) :
    q - 1 / 2 ≤ (roundHalfEven q : ℚ) ∧ (roundHalfEven q : ℚ) ≤ q + 1 / 2 := by
  have h1 : (⌊q⌋ : ℚ) ≤ q := Int.floor_le q
  have h2 : q < ⌊q⌋ + 1 := Int.lt_floor_add_one q
  unfold roundHalfEven
  split_ifs with ha hb hc <;> constructor <;> push_cast <;> linarith

theorem pyRound1_bounds (x : ℚ) (h0 : 0 ≤ x) (h1 : x ≤ 100) :
    0 ≤ pyRound1 x ∧ pyRound1 x ≤ 100 := by
  obtain ⟨hge, hle⟩ := roundHalfEven_bounds (x * 10)
  have hn0 : (0 : ℤ) ≤ roundHalfEven (x * 10) := by
    by_contra hc
    push_neg at hc
    have hc' : roundHalfEven (x * 10) ≤ -1 := by omega
    have : (roundHalfEven (x * 10) : ℚ) ≤ -1 := by exact_mod_cast hc'
    linarith
  have hn1 : roundHalfEven (x * 10) ≤ 1000 := by
    by_contra hc
    push_neg at hc
    have hc' : (1001 : ℤ) ≤ roundHalfEven (x * 10) := by omega
    have : (1001 : ℚ) ≤ (roundHalfEven (x * 10) : ℚ) := by exact_mod_cast hc'
    linarith
  unfold pyRound1
  have c0 : (0 : ℚ) ≤ (roundHalfEven (x * 10) : ℚ) := by exact_mod_cast hn0
  have c1 : (roundHalfEven (x * 10) : ℚ) ≤ 1000 := by exact_mod_cast hn1
  constructor <;> linarith

theorem sum_bounds_of_scores (l : List ℤ) (h : ∀ n ∈ l, 1 ≤ n ∧ n ≤ 6) :
    (l.length : ℤ) ≤ l.sum ∧ l.sum ≤ 6 * l.length := by
  induction l with
  | nil => simp
  | cons a t ih =>
    have ha := h a (List.mem_cons_self a t)
    have ht := ih fun n hn => h n (List.mem_cons_of_mem a hn)
    simp only [List.sum_cons, List.length_cons]
    constructor <;> push_cast <;> linarith [ha.1, ha.2, ht.1, ht.2]

theorem intValues_scores (d : Dict) (h : ∀ p ∈ d, scoreVal p.2) :
    ∀ n ∈ intValues d, 1 ≤ n ∧ n ≤ 6 := by
  intro n hn
  simp only [intValues, List.mem_filterMap, List.mem_map] at hn
  obtain ⟨v, ⟨p, hp, rfl⟩, hv⟩ := hn
  have hs := h p hp
  cases hp2 : p.2 with
  | vint m =>
    rw [hp2] at hv hs
    simp only [Option.some.injEq] at hv
    rw [← hv]
    exact hs
  | vnum q => rw [hp2] at hv; simp at hv
  | vstr s => rw [hp2] at hv; simp at hv
  | vdict dd => rw [hp2] at hv; simp at hv

theorem section_score_bounds (d : Dict) (h : ∀ p ∈ d, scoreVal p.2) :
    ∃ q, asNum (section_score d) = .ok q ∧ 0 ≤ q ∧ q ≤ 100 := by
  have hb := intValues_scores d h
  obtain ⟨hs1, hs2⟩ := sum_bounds_of_scores (intValues d) hb
  simp only [section_score]
  split_ifs with hl
  · have hM : (0 : ℚ) < ((((intValues d).length : ℤ) * 6 : ℤ) : ℚ) := by exact_mod_cast hl
    have hSnn : (0 : ℤ) ≤ (intValues d).sum := by
      have : (0 : ℤ) ≤ ((intValues d).length : ℤ) := Int.natCast_nonneg _
      linarith
    have hx0 : (0 : ℚ) ≤
        (((intValues d).sum : ℤ) : ℚ) / ((((intValues d).length : ℤ) * 6 : ℤ) : ℚ) * 100 := by
      apply mul_nonneg _ (by norm_num)
      apply div_nonneg _ (le_of_lt hM)
      exact_mod_cast hSnn
    have hx1 :
        (((intValues d).sum : ℤ) : ℚ) / ((((intValues d).length : ℤ) * 6 : ℤ) : ℚ) * 100 ≤ 100 := by
      have hdiv : (((intValues d).sum : ℤ) : ℚ) / ((((intValues d).length : ℤ) * 6 : ℤ) : ℚ) ≤ 1 := by
        rw [div_le_one hM]
        exact_mod_cast (by linarith : (intValues d).sum ≤ ((intValues d).length : ℤ) * 6)
      linarith
    obtain ⟨hq0, hq1⟩ := pyRound1_bounds _ hx0 hx1
    exact ⟨_, rfl, hq0, hq1⟩
  · refine ⟨0, by simp [asNum], le_refl 0, by norm_num⟩

theorem section_score_shape (d : Dict) :
    section_score d = .vint 0 ∨ ∃ n : ℤ, section_score d = .vnum ((n : ℚ) / 10) := by
  simp only [section_score]
  split_ifs
  · right; exact ⟨_, rfl⟩
  · left; rfl

theorem assessmentCalculations_numeric (ind : String) (noe lyr lyp cyr cyp : ℚ)
    (bp pr : Dict) :
    ∀ p ∈ assessmentCalculations ind noe lyr lyp cyr cyp bp pr,
      ∃ q, asNum p.2 = .ok q := by
  have hsec : ∀ d : Dict, ∃ q, asNum (section_score d) = .ok q := by
    intro d
    simp only [section_score]
    split_ifs
    · exact ⟨_, rfl⟩
    · exact ⟨_, rfl⟩
  intro p hp
  simp only [assessmentCalculations, List.mem_cons, List.not_mem_nil, or_false] at hp
  rcases hp with h|h|h|h|h|h|h|h|h|h|h|h|h|h|h <;> subst h <;>
    first
      | exact ⟨_, rfl⟩
      | (dsimp only; split_ifs <;> exact ⟨_, rfl⟩)
      | exact hsec _

/-- C7: on the §8 Retail scenario (industry "Retail", last_year_revenue
200000, last_year_profit 30000, current_year_estimated_revenue 220000,
current_year_estimated_profit 35000, number_of_employees 10) the engine
computes revenue_per_employee = 20000, last_year_profit_percentage = 0.15,
current_year_profit_percentage = 35000/220000, two_year_average_revenue =
210000, two_year_average_profit = 32500, range_of_value_low = 97500,
current_value_information_provided = 4875.0 and range_of_value_high =
32500 * 4.1 * 1.4 = 186550. -/
theorem claim7_retail_scenario :
    ((calcsOf sampleRecord).bind fun m => dictGet m "revenue_per_employee") =
        some (.vnum 20000) ∧
    ((calcsOf sampleRecord).bind fun m => dictGet m "last_year_profit_percentage") =
        some (.vnum 0.15) ∧
    ((calcsOf sampleRecord).bind fun m => dictGet m "current_year_profit_percentage") =
        some (.vnum (35000 / 220000)) ∧
    ((calcsOf sampleRecord).bind fun m => dictGet m "two_year_average_revenue") =
        some (.vnum 210000) ∧
    ((calcsOf sampleRecord).bind fun m => dictGet m "two_year_average_profit") =
        some (.vnum 32500) ∧
    ((calcsOf sampleRecord).bind fun m => dictGet m "range_of_value_low") =
        some (.vnum 97500) ∧
    ((calcsOf sampleRecord).bind fun m => dictGet m "current_value_information_provided") =
        some (.vnum 4875) ∧
    ((calcsOf sampleRecord).bind fun m => dictGet m "range_of_value_high") =
        some (.vnum 186550) := by
  have h := calculate_eq sampleRecord sampleAD sampleBG sampleBP samplePR "Retail"
    10 200000 30000 220000 35000 rfl rfl rfl rfl rfl rfl rfl rfl rfl rfl
  simp only [calcsOf, h, dictGet_dictSet_self]
  norm_num +decide [assessmentCalculations, dictGet, industryLookup, industry_data,
    industryOther]

/-- C2: on any well-formed input the engine succeeds, each division is guarded
by its own "denominator > 0 else 0" test (revenue_per_employee is the int 0
when number_of_employees = 0, last_year_profit_percentage when
last_year_revenue = 0, current_year_profit_percentage when
current_year_estimated_revenue = 0, two_year_average_self_reported_multiple
when the two-year average profit is not positive), and no zero denominator
short-circuits any other field: each field still carries its own formula. -/
theorem claim2_division_guards (r sections bg bp pr : Dict) (ind : String)
    (noe lyr lyp cyr cyp : ℚ)
    (hA : getDict r "assessment_data" = .ok sections)
    (hBG : getDict sections "business_goals_and_financials" = .ok bg)
    (hBP : getDict sections "business_performance_and_transferability" = .ok bp)
    (hPR : getDict sections "personal_readiness_for_business_owners" = .ok pr)
    (hInd : getKey bg "company_industry" = .ok (.vstr ind))
    (hNoe : getNum bg "number_of_employees" = .ok noe)
    (hLyr : getNum bg "last_year_revenue" = .ok lyr)
    (hLyp : getNum bg "last_year_profit" = .ok lyp)
    (hCyr : getNum bg "current_year_estimated_revenue" = .ok cyr)
    (hCyp : getNum bg "current_year_estimated_profit" = .ok cyp) :
    ∃ out m, calculate_assessment_scores r = .ok out ∧
      dictGet out "assessment_calculations" = some (.vdict m) ∧
      (noe = 0 → dictGet m "revenue_per_employee" = some (.vint 0)) ∧
      (noe > 0 → dictGet m "revenue_per_employee" = some (.vnum (lyr / noe))) ∧
      (lyr = 0 → dictGet m "last_year_profit_percentage" = some (.vint 0)) ∧
      (lyr > 0 → dictGet m "last_year_profit_percentage" = some (.vnum (lyp / lyr))) ∧
      (cyr = 0 → dictGet m "current_year_profit_percentage" = some (.vint 0)) ∧
      (cyr > 0 → dictGet m "current_year_profit_percentage" = some (.vnum (cyp / cyr))) ∧
      (¬ (cyp + lyp) / 2 > 0 →
        dictGet m "two_year_average_self_reported_multiple" = some (.vint 0)) ∧
      ((cyp + lyp) / 2 > 0 →
        dictGet m "two_year_average_self_reported_multiple" =
          some (.vnum (((cyr + lyr) / 2) / ((cyp + lyp) / 2)))) ∧
      dictGet m "two_year_average_revenue" = some (.vnum ((cyr + lyr) / 2)) ∧
      dictGet m "two_year_average_profit" = some (.vnum ((cyp + lyp) / 2)) := by
  refine ⟨_, _,
    calculate_eq r sections bg bp pr ind noe lyr lyp cyr cyp
      hA hBG hBP hPR hInd hNoe hLyr hLyp hCyr hCyp,
    dictGet_dictSet_self _ _ _, ?_, ?_, ?_, ?_, ?_, ?_, ?_, ?_, ?_, ?_⟩
  · intro h0; subst h0; norm_num +decide [assessmentCalculations, dictGet]
  · intro hpos; simp +decide [assessmentCalculations, dictGet, hpos]
  · intro h0; subst h0; norm_num +decide [assessmentCalculations, dictGet]
  · intro hpos; simp +decide [assessmentCalculations, dictGet, hpos]
  · intro h0; subst h0; norm_num +decide [assessmentCalculations, dictGet]
  · intro hpos; simp +decide [assessmentCalculations, dictGet, hpos]
  · intro hng; simp +decide [assessmentCalculations, dictGet, hng]
  · intro hpos; simp +decide [assessmentCalculations, dictGet, hpos]
  · simp +decide [assessmentCalculations, dictGet]
  · simp +decide [assessmentCalculations, dictGet]

/-- C3: the engine resolves ebitda_multiple and ebitda_margin by looking the
company_industry string up in the fixed benchmark table, with the Other row
(4.1 / 17.5) as default for any string not in the table, without error; the
12 table rows are bit-exact as stated in §6 of the spec. -/
theorem claim3_industry_benchmark (r sections bg bp pr : Dict) (ind : String)
    (noe lyr lyp cyr cyp : ℚ)
    (hA : getDict r "assessment_data" = .ok sections)
    (hBG : getDict sections "business_goals_and_financials" = .ok bg)
    (hBP : getDict sections "business_performance_and_transferability" = .ok bp)
    (hPR : getDict sections "personal_readiness_for_business_owners" = .ok pr)
    (hInd : getKey bg "company_industry" = .ok (.vstr ind))
    (hNoe : getNum bg "number_of_employees" = .ok noe)
    (hLyr : getNum bg "last_year_revenue" = .ok lyr)
    (hLyp : getNum bg "last_year_profit" = .ok lyp)
    (hCyr : getNum bg "current_year_estimated_revenue" = .ok cyr)
    (hCyp : getNum bg "current_year_estimated_profit" = .ok cyp) :
    ∃ out m, calculate_assessment_scores r = .ok out ∧
      dictGet out "assessment_calculations" = some (.vdict m) ∧
      dictGet m "ebitda_multiple" =
        some (.vnum ((industryLookup industry_data ind).getD industryOther).1) ∧
      dictGet m "ebitda_margin" =
        some (.vnum ((industryLookup industry_data ind).getD industryOther).2) ∧
      (industryLookup industry_data ind = none →
        (industryLookup industry_data ind).getD industryOther = (4.1, 17.5)) ∧
      industryOther = (4.1, 17.5) ∧
      industryLookup industry_data "Retail" = some (4.1, 15.0) ∧
      industryLookup industry_data "Restaurants" = some (3.6, 12.5) ∧
      industryLookup industry_data "Construction" = some (4.3, 18.0) ∧
      industryLookup industry_data "Manufacturing" = some (4.6, 19.2) ∧
      industryLookup industry_data "Professional Services" = some (4.5, 26.7) ∧
      industryLookup industry_data "Healthcare (Non-Medical)" = some (5.0, 22.2) ∧
      industryLookup industry_data "E-commerce" = some (4.8, 20.3) ∧
      industryLookup industry_data "Wholesale/Distribution" = some (4.2, 14.9) ∧
      industryLookup industry_data "Auto Repair" = some (3.8, 17.7) ∧
      industryLookup industry_data "Beauty/Personal Care" = some (3.7, 15.4) ∧
      industryLookup industry_data "IT Services" = some (5.3, 25.6) ∧
      industryLookup industry_data "Other" = some (4.1, 17.5) := by
  refine ⟨_, _,
    calculate_eq r sections bg bp pr ind noe lyr lyp cyr cyp
      hA hBG hBP hPR hInd hNoe hLyr hLyp hCyr hCyp,
    dictGet_dictSet_self _ _ _, rfl, ?_, ?_,
    rfl, rfl, rfl, rfl, rfl, rfl, rfl, rfl, rfl, rfl, rfl, rfl, rfl⟩
  · simp +decide [assessmentCalculations, dictGet]
  · intro h; rw [h]; rfl

theorem roundHalfEven_intCast (n : ℤ) : roundHalfEven (n : ℚ) = n := by
  unfold roundHalfEven
  rw [Int.floor_intCast]
  norm_num

/-- C4: the two section scores are computed by the same rule: sum of the
int-valued entries of the section, divided by (count of those entries × 6),
times 100, rounded to one decimal, and the int 0 when the section has no
int-valued entries; the denominator scales with however many fields are
present, so a personal-readiness section holding only 2 of the 10 fields,
both 6, scores exactly 100.0. -/
theorem claim4_score_scaling (r sections bg bp pr : Dict) (ind : String)
    (noe lyr lyp cyr cyp : ℚ)
    (hA : getDict r "assessment_data" = .ok sections)
    (hBG : getDict sections "business_goals_and_financials" = .ok bg)
    (hBP : getDict sections "business_performance_and_transferability" = .ok bp)
    (hPR : getDict sections "personal_readiness_for_business_owners" = .ok pr)
    (hInd : getKey bg "company_industry" = .ok (.vstr ind))
    (hNoe : getNum bg "number_of_employees" = .ok noe)
    (hLyr : getNum bg "last_year_revenue" = .ok lyr)
    (hLyp : getNum bg "last_year_profit" = .ok lyp)
    (hCyr : getNum bg "current_year_estimated_revenue" = .ok cyr)
    (hCyp : getNum bg "current_year_estimated_profit" = .ok cyp) :
    ∃ out m, calculate_assessment_scores r = .ok out ∧
      dictGet out "assessment_calculations" = some (.vdict m) ∧
      dictGet m "personal_readiness_score" = some (section_score pr) ∧
      dictGet m "company_transferability_score" = some (section_score bp) ∧
      (∀ d : Dict, intValues d ≠ [] →
        section_score d = .vnum (pyRound1
          (((intValues d).sum : ℚ) / ((((intValues d).length : ℤ) * 6 : ℤ) : ℚ) * 100))) ∧
      (∀ d : Dict, intValues d = [] → section_score d = .vint 0) ∧
      section_score partialPR = .vnum 100 := by
  refine ⟨_, _,
    calculate_eq r sections bg bp pr ind noe lyr lyp cyr cyp
      hA hBG hBP hPR hInd hNoe hLyr hLyp hCyr hCyp,
    dictGet_dictSet_self _ _ _, ?_, ?_, ?_, ?_, ?_⟩
  · simp +decide [assessmentCalculations, dictGet]
  · simp +decide [assessmentCalculations, dictGet]
  · intro d hd
    have hl : 0 < (intValues d).length := List.length_pos.mpr hd
    have hl6 : (0 : ℤ) < ((intValues d).length : ℤ) * 6 := by
      have : (0 : ℤ) < ((intValues d).length : ℤ) := by exact_mod_cast hl
      linarith
    simp only [section_score]
    rw [if_pos hl6]
  · intro d hd
    simp [section_score, hd]
  · have h0 : intValues partialPR = [6, 6] := rfl
    simp only [section_score, h0]
    norm_num [pyRound1]
    rw [show ((1000 : ℚ)) = ((1000 : ℤ) : ℚ) by norm_num, roundHalfEven_intCast]
    norm_num

/-- C5: when every present entry of the business-performance and
personal-readiness sections is an integer in [1,6] (entries may be absent),
both percentage scores are numeric values in the closed interval
[0.0, 100.0]. -/
theorem claim5_score_bounds (r sections bg bp pr : Dict) (ind : String)
    (noe lyr lyp cyr cyp : ℚ)
    (hA : getDict r "assessment_data" = .ok sections)
    (hBG : getDict sections "business_goals_and_financials" = .ok bg)
    (hBP : getDict sections "business_performance_and_transferability" = .ok bp)
    (hPR : getDict sections "personal_readiness_for_business_owners" = .ok pr)
    (hInd : getKey bg "company_industry" = .ok (.vstr ind))
    (hNoe : getNum bg "number_of_employees" = .ok noe)
    (hLyr : getNum bg "last_year_revenue" = .ok lyr)
    (hLyp : getNum bg "last_year_profit" = .ok lyp)
    (hCyr : getNum bg "current_year_estimated_revenue" = .ok cyr)
    (hCyp : getNum bg "current_year_estimated_profit" = .ok cyp)
    (hbp : ∀ p ∈ bp, scoreVal p.2) (hpr : ∀ p ∈ pr, scoreVal p.2) :
    ∃ out m v1 q1 v2 q2, calculate_assessment_scores r = .ok out ∧
      dictGet out "assessment_calculations" = some (.vdict m) ∧
      dictGet m "company_transferability_score" = some v1 ∧
      asNum v1 = .ok q1 ∧ 0 ≤ q1 ∧ q1 ≤ 100 ∧
      dictGet m "personal_readiness_score" = some v2 ∧
      asNum v2 = .ok q2 ∧ 0 ≤ q2 ∧ q2 ≤ 100 := by
  obtain ⟨q1, hq1, h01, h1001⟩ := section_score_bounds bp hbp
  obtain ⟨q2, hq2, h02, h1002⟩ := section_score_bounds pr hpr
  refine ⟨_, _, section_score bp, q1, section_score pr, q2,
    calculate_eq r sections bg bp pr ind noe lyr lyp cyr cyp
      hA hBG hBP hPR hInd hNoe hLyr hLyp hCyr hCyp,
    dictGet_dictSet_self _ _ _, ?_, hq1, h01, h1001, ?_, hq2, h02, h1002⟩
  · simp +decide [assessmentCalculations, dictGet]
  · simp +decide [assessmentCalculations, dictGet]

/-- C8: the engine is a pure function: calling it again on a shallow copy of
the same input yields the identical result, and mapping it over any sequence
of invocations affects each input independently (no hidden state or
cross-call interference is representable: output i depends only on input i). -/
theorem claim8_pure_idempotent :
    (∀ r : Dict, calculate_assessment_scores (pyCopy r) = calculate_assessment_scores r) ∧
    ∀ (rs : List Dict) (i : ℕ),
      (rs.map calculate_assessment_scores)[i]? =
        (rs[i]?).map calculate_assessment_scores := by
  refine ⟨fun r => rfl, fun rs i => ?_⟩
  simp

/-- C9: a pre-existing top-level assessment_calculations key does not make the
engine fail: the output carries the freshly computed calculations under that
key (the stale value is not in the output), while the input mapping still
holds its original value. -/
theorem claim9_preexisting_key (r sections bg bp pr : Dict) (ind : String)
    (noe lyr lyp cyr cyp : ℚ) (v0 : Val)
    (hPre : dictGet r "assessment_calculations" = some v0)
    (hA : getDict r "assessment_data" = .ok sections)
    (hBG : getDict sections "business_goals_and_financials" = .ok bg)
    (hBP : getDict sections "business_performance_and_transferability" = .ok bp)
    (hPR : getDict sections "personal_readiness_for_business_owners" = .ok pr)
    (hInd : getKey bg "company_industry" = .ok (.vstr ind))
    (hNoe : getNum bg "number_of_employees" = .ok noe)
    (hLyr : getNum bg "last_year_revenue" = .ok lyr)
    (hLyp : getNum bg "last_year_profit" = .ok lyp)
    (hCyr : getNum bg "current_year_estimated_revenue" = .ok cyr)
    (hCyp : getNum bg "current_year_estimated_profit" = .ok cyp) :
    ∃ out, calculate_assessment_scores r = .ok out ∧
      dictGet out "assessment_calculations" =
        some (.vdict (assessmentCalculations ind noe lyr lyp cyr cyp bp pr)) ∧
      dictGet r "assessment_calculations" = some v0 :=
  ⟨_, calculate_eq r sections bg bp pr ind noe lyr lyp cyr cyp
      hA hBG hBP hPR hInd hNoe hLyr hLyp hCyr hCyp,
    dictGet_dictSet_self _ _ _, hPre⟩

/-- C10: the computed assessment_calculations mapping depends only on the
three sections under assessment_data: two records that agree on the
business-goals, business-performance and personal-readiness sections produce
identical calculations mappings, whatever their other top-level fields are. -/
theorem claim10_noninterference (r1 r2 sections1 sections2 bg bp pr : Dict)
    (ind : String) (noe lyr lyp cyr cyp : ℚ)
    (hA1 : getDict r1 "assessment_data" = .ok sections1)
    (hA2 : getDict r2 "assessment_data" = .ok sections2)
    (hBG1 : getDict sections1 "business_goals_and_financials" = .ok bg)
    (hBG2 : getDict sections2 "business_goals_and_financials" = .ok bg)
    (hBP1 : getDict sections1 "business_performance_and_transferability" = .ok bp)
    (hBP2 : getDict sections2 "business_performance_and_transferability" = .ok bp)
    (hPR1 : getDict sections1 "personal_readiness_for_business_owners" = .ok pr)
    (hPR2 : getDict sections2 "personal_readiness_for_business_owners" = .ok pr)
    (hInd : getKey bg "company_industry" = .ok (.vstr ind))
    (hNoe : getNum bg "number_of_employees" = .ok noe)
    (hLyr : getNum bg "last_year_revenue" = .ok lyr)
    (hLyp : getNum bg "last_year_profit" = .ok lyp)
    (hCyr : getNum bg "current_year_estimated_revenue" = .ok cyr)
    (hCyp : getNum bg "current_year_estimated_profit" = .ok cyp) :
    ∃ out1 out2, calculate_assessment_scores r1 = .ok out1 ∧
      calculate_assessment_scores r2 = .ok out2 ∧
      dictGet out1 "assessment_calculations" = dictGet out2 "assessment_calculations" := by
  refine ⟨_, _,
    calculate_eq r1 sections1 bg bp pr ind noe lyr lyp cyr cyp
      hA1 hBG1 hBP1 hPR1 hInd hNoe hLyr hLyp hCyr hCyp,
    calculate_eq r2 sections2 bg bp pr ind noe lyr lyp cyr cyp
      hA2 hBG2 hBP2 hPR2 hInd hNoe hLyr hLyp hCyr hCyp, ?_⟩
  rw [dictGet_dictSet_self, dictGet_dictSet_self]

theorem getKey_none (d : Dict) (k : String) (h : dictGet d k = none) :
    getKey d k = .error ("KeyError: " ++ k) := by
  simp [getKey, h]

theorem getDict_none (d : Dict) (k : String) (h : dictGet d k = none) :
    getDict d k = .error ("KeyError: " ++ k) := by
  simp [getDict, getKey, h, bind, Except.bind]

theorem getNum_none (d : Dict) (k : String) (h : dictGet d k = none) :
    getNum d k = .error ("KeyError: " ++ k) := by
  simp [getNum, getKey, h, bind, Except.bind]

/-- C1 counterexample: on the schema-valid record `sampleRecord0` (zero
employees, everything else as in the §8 scenario) the engine's
`assessment_calculations` section has 15 fields — not the 14 the output
contract states — and its `revenue_per_employee` is the Python int 0, not a
float. -/
theorem claim1_counterexample :
    (calcsOf sampleRecord0).map List.length = some 15 ∧
    (calcsOf sampleRecord0).map List.length ≠ some 14 ∧
    ((calcsOf sampleRecord0).bind fun m => dictGet m "revenue_per_employee") =
      some (.vint 0) := by
  have h := calculate_eq sampleRecord0 sampleAD0 sampleBG0 sampleBP samplePR "Retail"
    0 200000 30000 220000 35000 rfl rfl rfl rfl rfl rfl rfl rfl rfl rfl
  simp only [calcsOf, h, dictGet_dictSet_self]
  refine ⟨?_, ?_, ?_⟩
  · simp [assessmentCalculations]
  · simp [assessmentCalculations]
  · norm_num +decide [assessmentCalculations, dictGet]

/-- C1 (amended): for every valid input record (required fields present and
well-typed, no pre-existing `assessment_calculations` key) the engine returns
the input augmented with exactly one additional top-level key,
`assessment_calculations`, holding exactly 15 fields — the 14 steps of §4.1,
with step 1 contributing both `ebitda_multiple` and `ebitda_margin` — every
field numeric (a float in general, the guarded-division and empty-section
fallbacks being the Python int 0), the two percentage scores multiples of
0.1; every original top-level key is present in the output with its value
untouched and not deep-mutated. -/
theorem claim1_enrichment (r sections bg bp pr : Dict) (ind : String)
    (noe lyr lyp cyr cyp : ℚ)
    (hNew : dictGet r "assessment_calculations" = none)
    (hA : getDict r "assessment_data" = .ok sections)
    (hBG : getDict sections "business_goals_and_financials" = .ok bg)
    (hBP : getDict sections "business_performance_and_transferability" = .ok bp)
    (hPR : getDict sections "personal_readiness_for_business_owners" = .ok pr)
    (hInd : getKey bg "company_industry" = .ok (.vstr ind))
    (hNoe : getNum bg "number_of_employees" = .ok noe)
    (hLyr : getNum bg "last_year_revenue" = .ok lyr)
    (hLyp : getNum bg "last_year_profit" = .ok lyp)
    (hCyr : getNum bg "current_year_estimated_revenue" = .ok cyr)
    (hCyp : getNum bg "current_year_estimated_profit" = .ok cyp) :
    ∃ out m, calculate_assessment_scores r = .ok out ∧
      dictGet out "assessment_calculations" = some (.vdict m) ∧
      out.length = r.length + 1 ∧
      (∀ k, k ≠ "assessment_calculations" → dictGet out k = dictGet r k) ∧
      m.map Prod.fst =
        ["ebitda_multiple", "ebitda_margin", "revenue_per_employee",
         "last_year_profit_percentage", "current_year_profit_percentage",
         "two_year_average_revenue", "two_year_average_profit",
         "two_year_average_self_reported_multiple", "range_of_value_low",
         "current_value_information_provided", "range_of_value_high",
         "profit_gap_surplus", "exit_planning_value_opportunity",
         "company_transferability_score", "personal_readiness_score"] ∧
      m.length = 15 ∧
      (∀ p ∈ m, ∃ q, asNum p.2 = .ok q) ∧
      (∀ v, dictGet m "company_transferability_score" = some v →
        v = .vint 0 ∨ ∃ n : ℤ, v = .vnum ((n : ℚ) / 10)) ∧
      (∀ v, dictGet m "personal_readiness_score" = some v →
        v = .vint 0 ∨ ∃ n : ℤ, v = .vnum ((n : ℚ) / 10)) := by
  refine ⟨_, assessmentCalculations ind noe lyr lyp cyr cyp bp pr,
    calculate_eq r sections bg bp pr ind noe lyr lyp cyr cyp
      hA hBG hBP hPR hInd hNoe hLyr hLyp hCyr hCyp,
    dictGet_dictSet_self _ _ _,
    dictSet_length_of_get_none r _ _ hNew,
    fun k hk => dictGet_dictSet_ne r _ k _ hk, rfl, rfl,
    assessmentCalculations_numeric ind noe lyr lyp cyr cyp bp pr, ?_, ?_⟩
  · intro v hv
    have hst : dictGet (assessmentCalculations ind noe lyr lyp cyr cyp bp pr)
        "company_transferability_score" = some (section_score bp) := by
      simp +decide [assessmentCalculations, dictGet]
    rw [hst, Option.some.injEq] at hv
    rw [← hv]
    exact section_score_shape bp
  · intro v hv
    have hst : dictGet (assessmentCalculations ind noe lyr lyp cyr cyp bp pr)
        "personal_readiness_score" = some (section_score pr) := by
      simp +decide [assessmentCalculations, dictGet]
    rw [hst, Option.some.injEq] at hv
    rw [← hv]
    exact section_score_shape pr

/-- C6: the engine faults exactly on absent required fields: with all the
required sections and fields present and well-typed it succeeds; and with any
one of the required sections or required numeric fields absent (everything
evaluated before it well-formed) it signals an error — the absence is never
swallowed into a zero result. -/
theorem claim6_missing_field_fault :
    (∀ (r sections bg bp pr : Dict) (ind : String) (noe lyr lyp cyr cyp : ℚ),
      getDict r "assessment_data" = .ok sections →
      getDict sections "business_goals_and_financials" = .ok bg →
      getDict sections "business_performance_and_transferability" = .ok bp →
      getDict sections "personal_readiness_for_business_owners" = .ok pr →
      getKey bg "company_industry" = .ok (.vstr ind) →
      getNum bg "number_of_employees" = .ok noe →
      getNum bg "last_year_revenue" = .ok lyr →
      getNum bg "last_year_profit" = .ok lyp →
      getNum bg "current_year_estimated_revenue" = .ok cyr →
      getNum bg "current_year_estimated_profit" = .ok cyp →
      isOkE (calculate_assessment_scores r) = true) ∧
    (∀ r : Dict, dictGet r "assessment_data" = none →
      isErr (calculate_assessment_scores r) = true) ∧
    (∀ (r sections : Dict), getDict r "assessment_data" = .ok sections →
      dictGet sections "business_goals_and_financials" = none →
      isErr (calculate_assessment_scores r) = true) ∧
    (∀ (r sections bg : Dict), getDict r "assessment_data" = .ok sections →
      getDict sections "business_goals_and_financials" = .ok bg →
      dictGet sections "business_performance_and_transferability" = none →
      isErr (calculate_assessment_scores r) = true) ∧
    (∀ (r sections bg bp : Dict), getDict r "assessment_data" = .ok sections →
      getDict sections "business_goals_and_financials" = .ok bg →
      getDict sections "business_performance_and_transferability" = .ok bp →
      dictGet sections "personal_readiness_for_business_owners" = none →
      isErr (calculate_assessment_scores r) = true) ∧
    (∀ (r sections bg bp pr : Dict), getDict r "assessment_data" = .ok sections →
      getDict sections "business_goals_and_financials" = .ok bg →
      getDict sections "business_performance_and_transferability" = .ok bp →
      getDict sections "personal_readiness_for_business_owners" = .ok pr →
      dictGet bg "company_industry" = none →
      isErr (calculate_assessment_scores r) = true) ∧
    (∀ (r sections bg bp pr : Dict) (ind : String),
      getDict r "assessment_data" = .ok sections →
      getDict sections "business_goals_and_financials" = .ok bg →
      getDict sections "business_performance_and_transferability" = .ok bp →
      getDict sections "personal_readiness_for_business_owners" = .ok pr →
      getKey bg "company_industry" = .ok (.vstr ind) →
      dictGet bg "number_of_employees" = none →
      isErr (calculate_assessment_scores r) = true) ∧
    (∀ (r sections bg bp pr : Dict) (ind : String) (noe : ℚ),
      getDict r "assessment_data" = .ok sections →
      getDict sections "business_goals_and_financials" = .ok bg →
      getDict sections "business_performance_and_transferability" = .ok bp →
      getDict sections "personal_readiness_for_business_owners" = .ok pr →
      getKey bg "company_industry" = .ok (.vstr ind) →
      getNum bg "number_of_employees" = .ok noe →
      dictGet bg "last_year_revenue" = none →
      isErr (calculate_assessment_scores r) = true) ∧
    (∀ (r sections bg bp pr : Dict) (ind : String) (noe lyr cyr cyp : ℚ),
      getDict r "assessment_data" = .ok sections →
      getDict sections "business_goals_and_financials" = .ok bg →
      getDict sections "business_performance_and_transferability" = .ok bp →
      getDict sections "personal_readiness_for_business_owners" = .ok pr →
      getKey bg "company_industry" = .ok (.vstr ind) →
      getNum bg "number_of_employees" = .ok noe →
      getNum bg "last_year_revenue" = .ok lyr →
      getNum bg "current_year_estimated_revenue" = .ok cyr →
      getNum bg "current_year_estimated_profit" = .ok cyp →
      dictGet bg "last_year_profit" = none →
      isErr (calculate_assessment_scores r) = true) ∧
    (∀ (r sections bg bp pr : Dict) (ind : String) (noe lyr lyp : ℚ),
      getDict r "assessment_data" = .ok sections →
      getDict sections "business_goals_and_financials" = .ok bg →
      getDict sections "business_performance_and_transferability" = .ok bp →
      getDict sections "personal_readiness_for_business_owners" = .ok pr →
      getKey bg "company_industry" = .ok (.vstr ind) →
      getNum bg "number_of_employees" = .ok noe →
      getNum bg "last_year_revenue" = .ok lyr →
      getNum bg "last_year_profit" = .ok lyp →
      dictGet bg "current_year_estimated_revenue" = none →
      isErr (calculate_assessment_scores r) = true) ∧
    (∀ (r sections bg bp pr : Dict) (ind : String) (noe lyr lyp cyr : ℚ),
      getDict r "assessment_data" = .ok sections →
      getDict sections "business_goals_and_financials" = .ok bg →
      getDict sections "business_performance_and_transferability" = .ok bp →
      getDict sections "personal_readiness_for_business_owners" = .ok pr →
      getKey bg "company_industry" = .ok (.vstr ind) →
      getNum bg "number_of_employees" = .ok noe →
      getNum bg "last_year_revenue" = .ok lyr →
      getNum bg "last_year_profit" = .ok lyp →
      getNum bg "current_year_estimated_revenue" = .ok cyr →
      dictGet bg "current_year_estimated_profit" = none →
      isErr (calculate_assessment_scores r) = true) := by
  refine ⟨?_, ?_, ?_, ?_, ?_, ?_, ?_, ?_, ?_, ?_, ?_⟩
  · intro r sections bg bp pr ind noe lyr lyp cyr cyp hA hBG hBP hPR hInd hNoe hLyr
      hLyp hCyr hCyp
    rw [calculate_eq r sections bg bp pr ind noe lyr lyp cyr cyp
      hA hBG hBP hPR hInd hNoe hLyr hLyp hCyr hCyp]
    rfl
  · intro r h
    simp [calculate_assessment_scores, pyCopy, getDict_none _ _ h,
      bind, Except.bind, pure, Except.pure, isErr]
  · intro r sections hA h
    simp [calculate_assessment_scores, pyCopy, hA, getDict_none _ _ h,
      bind, Except.bind, pure, Except.pure, isErr]
  · intro r sections bg hA hBG h
    simp [calculate_assessment_scores, pyCopy, hA, hBG, getDict_none _ _ h,
      bind, Except.bind, pure, Except.pure, isErr]
  · intro r sections bg bp hA hBG hBP h
    simp [calculate_assessment_scores, pyCopy, hA, hBG, hBP, getDict_none _ _ h,
      bind, Except.bind, pure, Except.pure, isErr]
  · intro r sections bg bp pr hA hBG hBP hPR h
    simp [calculate_assessment_scores, pyCopy, hA, hBG, hBP, hPR, getKey_none _ _ h,
      bind, Except.bind, pure, Except.pure, isErr]
  · intro r sections bg bp pr ind hA hBG hBP hPR hInd h
    simp [calculate_assessment_scores, pyCopy, hA, hBG, hBP, hPR, hInd, industryGet,
      getNum_none _ _ h, bind, Except.bind, pure, Except.pure, isErr]
  · intro r sections bg bp pr ind noe hA hBG hBP hPR hInd hNoe h
    by_cases h1 : noe > 0 <;>
      simp [calculate_assessment_scores, pyCopy, hA, hBG, hBP, hPR, hInd, hNoe,
        industryGet, getNum_none _ _ h, h1, bind, Except.bind, pure, Except.pure, isErr]
  · intro r sections bg bp pr ind noe lyr cyr cyp hA hBG hBP hPR hInd hNoe hLyr
      hCyr hCyp h
    by_cases h1 : noe > 0 <;> by_cases h2 : lyr > 0 <;> by_cases h3 : cyr > 0 <;>
      simp [calculate_assessment_scores, pyCopy, hA, hBG, hBP, hPR, hInd, hNoe, hLyr,
        hCyr, hCyp, industryGet, getNum_none _ _ h, h1, h2, h3,
        bind, Except.bind, pure, Except.pure, isErr, asNum]
  · intro r sections bg bp pr ind noe lyr lyp hA hBG hBP hPR hInd hNoe hLyr hLyp h
    by_cases h1 : noe > 0 <;> by_cases h2 : lyr > 0 <;>
      simp [calculate_assessment_scores, pyCopy, hA, hBG, hBP, hPR, hInd, hNoe, hLyr,
        hLyp, industryGet, getNum_none _ _ h, h1, h2, bind, Except.bind, pure, Except.pure, isErr, asNum]
  · intro r sections bg bp pr ind noe lyr lyp cyr hA hBG hBP hPR hInd hNoe hLyr hLyp
      hCyr h
    by_cases h1 : noe > 0 <;> by_cases h2 : lyr > 0 <;> by_cases h3 : cyr > 0 <;>
      simp [calculate_assessment_scores, pyCopy, hA, hBG, hBP, hPR, hInd, hNoe, hLyr,
        hLyp, hCyr, industryGet, getNum_none _ _ h, h1, h2, h3,
        bind, Except.bind, pure, Except.pure, isErr, asNum]

/-- Witness: the amended C1 applied to the concrete `sampleRecord`. -/
theorem claim1_enrichment_witness :
    ∃ out m, calculate_assessment_scores sampleRecord = .ok out ∧
      dictGet out "assessment_calculations" = some (.vdict m) ∧
      out.length = sampleRecord.length + 1 ∧
      (∀ k, k ≠ "assessment_calculations" → dictGet out k = dictGet sampleRecord k) ∧
      m.map Prod.fst =
        ["ebitda_multiple", "ebitda_margin", "revenue_per_employee",
         "last_year_profit_percentage", "current_year_profit_percentage",
         "two_year_average_revenue", "two_year_average_profit",
         "two_year_average_self_reported_multiple", "range_of_value_low",
         "current_value_information_provided", "range_of_value_high",
         "profit_gap_surplus", "exit_planning_value_opportunity",
         "company_transferability_score", "personal_readiness_score"] ∧
      m.length = 15 ∧
      (∀ p ∈ m, ∃ q, asNum p.2 = .ok q) ∧
      (∀ v, dictGet m "company_transferability_score" = some v →
        v = .vint 0 ∨ ∃ n : ℤ, v = .vnum ((n : ℚ) / 10)) ∧
      (∀ v, dictGet m "personal_readiness_score" = some v →
        v = .vint 0 ∨ ∃ n : ℤ, v = .vnum ((n : ℚ) / 10)) :=
  claim1_enrichment sampleRecord sampleAD sampleBG sampleBP samplePR "Retail"
    10 200000 30000 220000 35000 rfl rfl rfl rfl rfl rfl rfl rfl rfl rfl rfl

/-- Witness: C2 applied to the concrete zero-employee record `sampleRecord0`. -/
theorem claim2_division_guards_witness :
    ∃ out m, calculate_assessment_scores sampleRecord0 = .ok out ∧
      dictGet out "assessment_calculations" = some (.vdict m) ∧
      ((0 : ℚ) = 0 → dictGet m "revenue_per_employee" = some (.vint 0)) ∧
      ((0 : ℚ) > 0 → dictGet m "revenue_per_employee" = some (.vnum (200000 / 0))) ∧
      ((200000 : ℚ) = 0 → dictGet m "last_year_profit_percentage" = some (.vint 0)) ∧
      ((200000 : ℚ) > 0 →
        dictGet m "last_year_profit_percentage" = some (.vnum (30000 / 200000))) ∧
      ((220000 : ℚ) = 0 → dictGet m "current_year_profit_percentage" = some (.vint 0)) ∧
      ((220000 : ℚ) > 0 →
        dictGet m "current_year_profit_percentage" = some (.vnum (35000 / 220000))) ∧
      (¬ ((35000 : ℚ) + 30000) / 2 > 0 →
        dictGet m "two_year_average_self_reported_multiple" = some (.vint 0)) ∧
      (((35000 : ℚ) + 30000) / 2 > 0 →
        dictGet m "two_year_average_self_reported_multiple" =
          some (.vnum ((((220000 : ℚ) + 200000) / 2) / (((35000 : ℚ) + 30000) / 2)))) ∧
      dictGet m "two_year_average_revenue" = some (.vnum (((220000 : ℚ) + 200000) / 2)) ∧
      dictGet m "two_year_average_profit" = some (.vnum (((35000 : ℚ) + 30000) / 2)) :=
  claim2_division_guards sampleRecord0 sampleAD0 sampleBG0 sampleBP samplePR "Retail"
    0 200000 30000 220000 35000 rfl rfl rfl rfl rfl rfl rfl rfl rfl rfl

/-- Witness: C3 applied to the concrete `sampleRecord` (industry Retail). -/
theorem claim3_industry_benchmark_witness :
    ∃ out m, calculate_assessment_scores sampleRecord = .ok out ∧
      dictGet out "assessment_calculations" = some (.vdict m) ∧
      dictGet m "ebitda_multiple" =
        some (.vnum ((industryLookup industry_data "Retail").getD industryOther).1) ∧
      dictGet m "ebitda_margin" =
        some (.vnum ((industryLookup industry_data "Retail").getD industryOther).2) ∧
      (industryLookup industry_data "Retail" = none →
        (industryLookup industry_data "Retail").getD industryOther = (4.1, 17.5)) ∧
      industryOther = (4.1, 17.5) ∧
      industryLookup industry_data "Retail" = some (4.1, 15.0) ∧
      industryLookup industry_data "Restaurants" = some (3.6, 12.5) ∧
      industryLookup industry_data "Construction" = some (4.3, 18.0) ∧
      industryLookup industry_data "Manufacturing" = some (4.6, 19.2) ∧
      industryLookup industry_data "Professional Services" = some (4.5, 26.7) ∧
      industryLookup industry_data "Healthcare (Non-Medical)" = some (5.0, 22.2) ∧
      industryLookup industry_data "E-commerce" = some (4.8, 20.3) ∧
      industryLookup industry_data "Wholesale/Distribution" = some (4.2, 14.9) ∧
      industryLookup industry_data "Auto Repair" = some (3.8, 17.7) ∧
      industryLookup industry_data "Beauty/Personal Care" = some (3.7, 15.4) ∧
      industryLookup industry_data "IT Services" = some (5.3, 25.6) ∧
      industryLookup industry_data "Other" = some (4.1, 17.5) :=
  claim3_industry_benchmark sampleRecord sampleAD sampleBG sampleBP samplePR "Retail"
    10 200000 30000 220000 35000 rfl rfl rfl rfl rfl rfl rfl rfl rfl rfl

/-- Witness: C4 applied to the concrete `sampleRecord`. -/
theorem claim4_score_scaling_witness :
    ∃ out m, calculate_assessment_scores sampleRecord = .ok out ∧
      dictGet out "assessment_calculations" = some (.vdict m) ∧
      dictGet m "personal_readiness_score" = some (section_score samplePR) ∧
      dictGet m "company_transferability_score" = some (section_score sampleBP) ∧
      (∀ d : Dict, intValues d ≠ [] →
        section_score d = .vnum (pyRound1
          (((intValues d).sum : ℚ) / ((((intValues d).length : ℤ) * 6 : ℤ) : ℚ) * 100))) ∧
      (∀ d : Dict, intValues d = [] → section_score d = .vint 0) ∧
      section_score partialPR = .vnum 100 :=
  claim4_score_scaling sampleRecord sampleAD sampleBG sampleBP samplePR "Retail"
    10 200000 30000 220000 35000 rfl rfl rfl rfl rfl rfl rfl rfl rfl rfl

/-- Witness: C5 applied to the concrete `sampleRecord`, whose sections satisfy
the schema range check. -/
theorem claim5_score_bounds_witness :
    ∃ out m v1 q1 v2 q2, calculate_assessment_scores sampleRecord = .ok out ∧
      dictGet out "assessment_calculations" = some (.vdict m) ∧
      dictGet m "company_transferability_score" = some v1 ∧
      asNum v1 = .ok q1 ∧ 0 ≤ q1 ∧ q1 ≤ 100 ∧
      dictGet m "personal_readiness_score" = some v2 ∧
      asNum v2 = .ok q2 ∧ 0 ≤ q2 ∧ q2 ≤ 100 :=
  claim5_score_bounds sampleRecord sampleAD sampleBG sampleBP samplePR "Retail"
    10 200000 30000 220000 35000 rfl rfl rfl rfl rfl rfl rfl rfl rfl rfl
    (by decide) (by decide)

/-- Witness: C6 applied to the complete `sampleRecord` (success) and to
`sampleRecordNoProfit`, which misses the required `last_year_profit`
(failure). -/
theorem claim6_missing_field_fault_witness :
    isOkE (calculate_assessment_scores sampleRecord) = true ∧
    isErr (calculate_assessment_scores sampleRecordNoProfit) = true :=
  ⟨claim6_missing_field_fault.1 sampleRecord sampleAD sampleBG sampleBP samplePR
      "Retail" 10 200000 30000 220000 35000 rfl rfl rfl rfl rfl rfl rfl rfl rfl rfl,
    claim6_missing_field_fault.2.2.2.2.2.2.2.2.1 sampleRecordNoProfit sampleADNoProfit
      sampleBGNoProfit sampleBP samplePR "Retail" 10 200000 220000 35000
      rfl rfl rfl rfl rfl rfl rfl rfl rfl rfl⟩

/-- Witness: C9 applied to `sampleRecordPre`, which carries a stale
`assessment_calculations` entry. -/
theorem claim9_preexisting_key_witness :
    ∃ out, calculate_assessment_scores sampleRecordPre = .ok out ∧
      dictGet out "assessment_calculations" =
        some (.vdict (assessmentCalculations "Retail" 10 200000 30000 220000 35000
          sampleBP samplePR)) ∧
      dictGet sampleRecordPre "assessment_calculations" = some (.vstr "stale") :=
  claim9_preexisting_key sampleRecordPre sampleAD sampleBG sampleBP samplePR "Retail"
    10 200000 30000 220000 35000 (.vstr "stale")
    rfl rfl rfl rfl rfl rfl rfl rfl rfl rfl rfl

/-- Witness: C10 applied to `sampleRecord` and `sampleRecordAlt`, which differ
in every personal top-level field but share the same `assessment_data`. -/
theorem claim10_noninterference_witness :
    ∃ out1 out2, calculate_assessment_scores sampleRecord = .ok out1 ∧
      calculate_assessment_scores sampleRecordAlt = .ok out2 ∧
      dictGet out1 "assessment_calculations" = dictGet out2 "assessment_calculations" :=
  claim10_noninterference sampleRecord sampleRecordAlt sampleAD sampleAD sampleBG
    sampleBP samplePR "Retail" 10 200000 30000 220000 35000
    rfl rfl rfl rfl rfl rfl rfl rfl rfl rfl rfl rfl rfl rfl

end Meka
